import Mathlib

/-
Verification of the vital / vitals health and middleware library.

The development shallowly embeds the Go sources:
  * the health-endpoint package (Status, CheckResponse, runCheck,
    runAllChecks, overallStatus, NewHandler host capture, JSON shapes), and
  * the timeout middleware (timeoutResponseWriter, the synthetic problem
    response, and the race between handler completion and the deadline).

Machine integers (time.Duration) are modelled as Int; external effects
(os.Hostname, wall-clock durations, context expiry, goroutine scheduling)
are passed in as explicit parameters, so every definition is executable.
-/

/-! ## Health data model (package vitals) -/

/-- Go: `type Status string` with constants StatusOK / StatusError. -/
abbrev Status := String

def StatusOK : Status := "ok"

def StatusError : Status := "error"

/-- Go struct CheckResponse: name, status, message, duration fields. -/
structure CheckResponse where
  name : String
  status : Status
  message : String
  duration : String
deriving DecidableEq, Repr

/-- Go zero value of CheckResponse, as produced by `make([]CheckResponse, n)`. -/
instance : Inhabited CheckResponse := ⟨⟨"", "", "", ""⟩⟩

/-- Observable state of a context at the point where `ctx.Err()` is
inspected: `none` models a live context, `some reason` an expired or
cancelled one whose `Err().Error()` is `reason`. -/
structure CtxState where
  errMsg : Option String
deriving DecidableEq, Repr

/-- Go interface Checker: Name() plus Check(ctx) returning (Status, string).
The check result may depend on the context state it observes. -/
structure Checker where
  name : String
  check : CtxState → Status × String

instance : Inhabited Checker := ⟨⟨"", fun _ => (StatusOK, "")⟩⟩

/-- readyConfig of the health package (overallTimeout, in nanoseconds). -/
structure readyConfig where
  overallTimeout : Int
deriving DecidableEq, Repr

/-- runCheck: call the probe, then inspect the same context's error state;
an expired context downgrades a reported OK to Error, appending the
cancellation reason to the message.  `elapsed` stands for the wall-clock
`time.Since(start).String()` measurement, which is external to the logic. -/
def runCheck (ctx : CtxState) (_cfg : readyConfig) (chk : Checker) (elapsed : String) :
    CheckResponse :=
  let r := chk.check ctx
  let status := r.1
  let msg := r.2
  match ctx.errMsg with
  | some e =>
      if status = StatusOK then
        { name := chk.name
          status := StatusError
          message := if msg = "" then e else msg ++ "; " ++ e
          duration := elapsed }
      else
        { name := chk.name, status := status, message := msg, duration := elapsed }
  | none => { name := chk.name, status := status, message := msg, duration := elapsed }

/-- overallStatus: Error as soon as one check is not OK, else OK. -/
def overallStatus : List CheckResponse → Status
  | [] => StatusOK
  | c :: rest => if c.status ≠ StatusOK then StatusError else overallStatus rest

/-! ## The readiness fan-out (runAllChecks)

Each goroutine writes its result into the slot of its registration index.
The scheduling nondeterminism is made explicit: `order` is the sequence in
which goroutines complete (and hence store their slot), `ctxAt i` is the
context state goroutine `i` observes after its probe returns, and `durOf i`
its measured duration. -/

/-- Sequential replay of the slot stores, in completion order. -/
def fillResults (f : Nat → CheckResponse) : List Nat → List CheckResponse → List CheckResponse
  | [], acc => acc
  | o :: rest, acc => fillResults f rest (acc.set o (f o))

/-- runAllChecks: allocate `len(checkers)` zero slots, then let each
completing goroutine `i` store `runCheck` of checker `i` at index `i`. -/
def runAllChecks (ctxAt : Nat → CtxState) (cfg : readyConfig) (checkers : List Checker)
    (durOf : Nat → String) (order : List Nat) : List CheckResponse :=
  fillResults
    (fun i => runCheck (ctxAt i) cfg (checkers.getD i default) (durOf i))
    order
    (List.replicate checkers.length default)

/-! ## JSON shapes -/

/-- JSON values, as far as the health bodies need them. -/
inductive JVal where
  | str (s : String)
  | num (n : Int)
  | arr (xs : List JVal)
  | obj (fields : List (String × JVal))

/-- Association lookup over an encoded JSON object. -/
def lookupField : List (String × JVal) → String → Option JVal
  | [], _ => none
  | (k, v) :: rest, key => if k = key then some v else lookupField rest key

/-- ReadyResponse struct: status, checks, version/host/environment
(the latter three carry `omitempty` JSON tags). -/
structure ReadyResponse where
  status : Status
  checks : List CheckResponse
  version : String
  host : String
  environment : String

/-- The ReadyResponse built by readyHandler for one request. -/
def buildReadyResponse (version host environment : String) (checks : List CheckResponse) :
    ReadyResponse :=
  { status := overallStatus checks
    checks := checks
    version := version
    host := host
    environment := environment }

/-- encoding/json rendering of one CheckResponse (message and duration
carry omitempty). -/
def checkJson (c : CheckResponse) : JVal :=
  JVal.obj
    ([("name", JVal.str c.name), ("status", JVal.str c.status)]
      ++ (if c.message = "" then [] else [("message", JVal.str c.message)])
      ++ (if c.duration = "" then [] else [("duration", JVal.str c.duration)]))

/-- encoding/json rendering of the ReadyResponse body: fields in struct
declaration order, omitempty fields dropped when empty. -/
def readyResponseFields (r : ReadyResponse) : List (String × JVal) :=
  [("status", JVal.str r.status), ("checks", JVal.arr (r.checks.map checkJson))]
    ++ (if r.version = "" then [] else [("version", JVal.str r.version)])
    ++ (if r.host = "" then [] else [("host", JVal.str r.host)])
    ++ (if r.environment = "" then [] else [("environment", JVal.str r.environment)])

/-- The host string captured once inside NewHandler: the hostname when the
lookup succeeds, the literal "unknown" when it fails.  The outcome of the
external `os.Hostname()` call is the explicit parameter `lookup`. -/
def NewHandlerHost (lookup : Option String) : String :=
  match lookup with
  | some h => h
  | none => "unknown"

/-! ## Problem details (response.go) -/

/-- RFC 9457 problem detail struct.  The Go field `Instance` is rendered
here as `instance_` because its source name collides with a keyword. -/
structure ProblemDetail where
  type : String
  title : String
  status : Int
  detail : String
  instance_ : String
  extensions : List (String × JVal)

/-- Options mutate the struct under construction. -/
abbrev ProblemOption := ProblemDetail → ProblemDetail

/-- WithDetail sets the detail message. -/
def WithDetail (detail : String) : ProblemOption :=
  fun p => { p with detail := detail }

/-- NewProblemDetail: status and title, optional fields empty, then apply
the options in order. -/
def NewProblemDetail (status : Int) (title : String) (opts : List ProblemOption) :
    ProblemDetail :=
  opts.foldl (fun p o => o p)
    { type := "", title := title, status := status, detail := "", instance_ := ""
      extensions := [] }

/-- newProblem: prepend WithDetail to the option list. -/
def newProblem (status : Int) (title detail : String) (opts : List ProblemOption) :
    ProblemDetail :=
  NewProblemDetail status title (WithDetail detail :: opts)

/-- ServiceUnavailable: a 503 problem detail. -/
def ServiceUnavailable (detail : String) (opts : List ProblemOption) : ProblemDetail :=
  newProblem 503 "Service Unavailable" detail opts

/-- Reserved RFC 9457 field names that may not be used as extensions. -/
def reservedKeys : List String := ["type", "title", "status", "detail", "instance"]

/-- MarshalJSON: reject reserved extension keys, otherwise emit type
(omitempty), title, status, detail (omitempty), instance (omitempty) and
the extensions. -/
def marshalProblem (p : ProblemDetail) : Except String (List (String × JVal)) :=
  if p.extensions.any (fun kv => reservedKeys.contains kv.1) then
    Except.error "extension key conflicts with reserved RFC 9457 field"
  else
    Except.ok
      ((if p.type = "" then [] else [("type", JVal.str p.type)])
        ++ [("title", JVal.str p.title), ("status", JVal.num p.status)]
        ++ (if p.detail = "" then [] else [("detail", JVal.str p.detail)])
        ++ (if p.instance_ = "" then [] else [("instance", JVal.str p.instance_)])
        ++ p.extensions)

/-! ## Transport-side writer model

A RawWriter is the underlying http.ResponseWriter (for the tests, the
response recorder): it keeps the header map plus the ordered sequence of
WriteHeader / body-write calls that reached the transport.  Body writes are
tagged so a JSON-encoded document and a raw byte chunk stay
distinguishable. -/

/-- One body chunk reaching the transport. -/
inductive Chunk where
  | raw (s : String)
  | json (fields : List (String × JVal))

/-- One call observed by the underlying writer. -/
inductive WriteEvent where
  | statusCode (code : Int)
  | body (c : Chunk)

/-- The underlying transport writer. -/
structure RawWriter where
  headers : List (String × String)
  events : List WriteEvent

def emptyWriter : RawWriter := { headers := [], events := [] }

/-- Header().Set: replace any previous value for the key. -/
def setHeader (w : RawWriter) (k v : String) : RawWriter :=
  { w with headers := (k, v) :: w.headers.filter (fun p => p.1 ≠ k) }

/-- First value stored for a header key (textproto Get semantics). -/
def lookupHeader : List (String × String) → String → Option String
  | [], _ => none
  | (k, v) :: rest, key => if k = key then some v else lookupHeader rest key

/-- Header lookup on the underlying writer. -/
def getHeader (w : RawWriter) (k : String) : Option String :=
  lookupHeader w.headers k

/-- WriteHeader on the underlying writer. -/
def rawWriteHeader (w : RawWriter) (code : Int) : RawWriter :=
  { w with events := w.events ++ [WriteEvent.statusCode code] }

/-- Write on the underlying writer. -/
def rawWrite (w : RawWriter) (c : Chunk) : RawWriter :=
  { w with events := w.events ++ [WriteEvent.body c] }

/-- RespondProblem: set the problem content type, send the problem's
status code, then JSON-encode the body (an encoding failure is only
logged, nothing further is written). -/
def RespondProblem (w : RawWriter) (p : ProblemDetail) : RawWriter :=
  let w1 := setHeader w "Content-Type" "application/problem+json"
  let w2 := rawWriteHeader w1 p.status
  match marshalProblem p with
  | Except.ok fields => rawWrite w2 (Chunk.json fields)
  | Except.error _ => w2

/-! ## Timeout middleware (timeout.go)

The mutex serialises every wrapper operation and the guard's deadline
branch, so each of them is one atomic step here. -/

/-- timeoutResponseWriter: the wrapper around the underlying writer with
its headersSent flag. -/
structure timeoutResponseWriter where
  underlying : RawWriter
  headersSent : Bool

/-- Wrapper WriteHeader: forward the code only when headers were not yet
sent, and mark them sent. -/
def timeoutResponseWriter.WriteHeader (tw : timeoutResponseWriter) (code : Int) :
    timeoutResponseWriter :=
  if tw.headersSent then tw
  else { underlying := rawWriteHeader tw.underlying code, headersSent := true }

/-- Wrapper Write: mark headers sent and always forward the bytes. -/
def timeoutResponseWriter.Write (tw : timeoutResponseWriter) (b : String) :
    timeoutResponseWriter :=
  { underlying := rawWrite tw.underlying (Chunk.raw b), headersSent := true }

/-- One handler-issued call on the wrapped writer. -/
inductive WOp where
  | writeHeader (code : Int)
  | write (b : String)

/-- Apply one handler call through the wrapper. -/
def applyOp (tw : timeoutResponseWriter) : WOp → timeoutResponseWriter
  | WOp.writeHeader code => tw.WriteHeader code
  | WOp.write b => tw.Write b

/-- Apply a sequence of handler calls through the wrapper. -/
def applyOps (tw : timeoutResponseWriter) : List WOp → timeoutResponseWriter
  | [] => tw
  | op :: rest => applyOps (applyOp tw op) rest

/-- Apply handler calls directly on the raw writer (the passthrough path,
where no wrapper is installed). -/
def applyOpsRaw (w : RawWriter) : List WOp → RawWriter
  | [] => w
  | WOp.writeHeader code :: rest => applyOpsRaw (rawWriteHeader w code) rest
  | WOp.write b :: rest => applyOpsRaw (rawWrite w (Chunk.raw b)) rest

/-- Which of the two race signals fires first for this request: the
handler-finished signal strictly first, both simultaneously ready, or the
deadline strictly first. -/
inductive Timing where
  | before
  | tie
  | after

/-- One concrete execution of the downstream handler under a deadline
context: the writer calls it issues strictly before the deadline fires,
the calls it issues afterwards (empty unless the handler outlives the
deadline), how its completion signal relates to the deadline signal, and
an optional panic value raised at the end of its run. -/
structure HandlerRun where
  opsBeforeDeadline : List WOp
  opsAfterDeadline : List WOp
  timing : Timing
  panics : Option String

/-- The request context as the handler observes it; `timeoutDerived`
records whether the middleware wrapped it in context.WithTimeout. -/
structure ReqCtx where
  timeoutDerived : Bool

/-- context.WithTimeout derivation performed by the guarded path. -/
def deriveTimeout (rctx : ReqCtx) : ReqCtx :=
  { rctx with timeoutDerived := true }

/-- A downstream handler: its execution depends on the context it is
given. -/
structure GoHandler where
  run : ReqCtx → HandlerRun

/-- How the middleware call itself terminates: a normal return or a
re-raised panic. -/
inductive MWResult where
  | returned
  | panicked (p : String)

/-- next.ServeHTTP(w, r) without the middleware: calls hit the raw writer
directly, a panic propagates directly to the caller. -/
def plainServe (h : GoHandler) (rctx : ReqCtx) (w : RawWriter) : RawWriter × MWResult :=
  let hr := h.run rctx
  let w1 := applyOpsRaw w (hr.opsBeforeDeadline ++ hr.opsAfterDeadline)
  (w1,
    match hr.panics with
    | some p => MWResult.panicked p
    | none => MWResult.returned)

/-- The ctx.Done branch of the select (timeout.go lines 61-70): under the
wrapper's lock, return if the wrapper saw headers sent, otherwise write
the synthetic problem response THROUGH THE RAW writer.  Note the source
does not mark the wrapper's headersSent flag here. -/
def timeoutBranch (tw : timeoutResponseWriter) : timeoutResponseWriter :=
  if tw.headersSent then tw
  else
    { tw with
        underlying := RespondProblem tw.underlying (ServiceUnavailable "request timeout exceeded" []) }

/-- The done branch of the select (timeout.go lines 54-60): re-raise a
captured panic from the one-slot channel, else return normally. -/
def completedResult (hr : HandlerRun) : MWResult :=
  match hr.panics with
  | some p => MWResult.panicked p
  | none => MWResult.returned

/-- The guarded path of the middleware.  `pick` is the scheduler's choice
when both select cases are simultaneously ready (Go select chooses
uniformly at random among ready cases; `pick = true` stands for the done
case).  `guardFirst` is the mutex acquisition order between the deadline
branch and the handler's post-deadline writes. -/
def timeoutServe (h : GoHandler) (rctx : ReqCtx) (pick guardFirst : Bool) (w : RawWriter) :
    RawWriter × MWResult :=
  let hr := h.run (deriveTimeout rctx)
  let tw1 := applyOps { underlying := w, headersSent := false } hr.opsBeforeDeadline
  match hr.timing with
  | Timing.before => (tw1.underlying, completedResult hr)
  | Timing.tie =>
      if pick then (tw1.underlying, completedResult hr)
      else ((timeoutBranch tw1).underlying, MWResult.returned)
  | Timing.after =>
      if guardFirst then
        ((applyOps (timeoutBranch tw1) hr.opsAfterDeadline).underlying, MWResult.returned)
      else
        ((timeoutBranch (applyOps tw1 hr.opsAfterDeadline)).underlying, MWResult.returned)

/-- The Timeout middleware: nonpositive durations short-circuit to the
plain handler call, positive durations run the guarded race.  The duration
is in nanoseconds (time.Duration). -/
def Timeout (duration : Int) (next : GoHandler) (rctx : ReqCtx) (pick guardFirst : Bool)
    (w : RawWriter) : RawWriter × MWResult :=
  if duration ≤ 0 then plainServe next rctx w
  else timeoutServe next rctx pick guardFirst w

/-! ## Concrete inputs and observation helpers used by the theorems -/

/-- The JSON fields of the synthetic timeout problem body. -/
def svcUnavailFields : List (String × JVal) :=
  [("title", JVal.str "Service Unavailable"), ("status", JVal.num 503),
   ("detail", JVal.str "request timeout exceeded")]

/-- Is this transport event a WriteHeader call? -/
def isStatusEvent : WriteEvent → Bool
  | WriteEvent.statusCode _ => true
  | WriteEvent.body _ => false

/-- How many status codes ever reached the transport. -/
def countStatus (es : List WriteEvent) : Nat :=
  (es.filter isStatusEvent).length

/-- The body chunks that reached the transport, in order. -/
def bodiesOf (es : List WriteEvent) : List Chunk :=
  es.filterMap (fun e =>
    match e with
    | WriteEvent.body c => some c
    | WriteEvent.statusCode _ => none)

/-- The raw chunks a sequence of handler calls asks to write, in order. -/
def opsBodies (ops : List WOp) : List Chunk :=
  ops.filterMap (fun o =>
    match o with
    | WOp.write b => some (Chunk.raw b)
    | WOp.writeHeader _ => none)

/-- A handler that never writes before the deadline, ignores cancellation
and issues one late write afterwards — the scenario of the repository test
named "suppresses late writes after timeout response". -/
def lateWriteHandler : GoHandler :=
  ⟨fun _ => ⟨[], [WOp.write "late-write"], Timing.after, none⟩⟩

/-- A handler whose completion signal becomes ready at the same instant as
the deadline signal, having written nothing. -/
def tieHandler : GoHandler :=
  ⟨fun _ => ⟨[], [], Timing.tie, none⟩⟩

/-- A fast handler writing a 200 with a small body. -/
def okHandler : GoHandler :=
  ⟨fun _ => ⟨[WOp.writeHeader 200, WOp.write "success"], [], Timing.before, none⟩⟩

/-- A handler that panics before the deadline. -/
def panickingHandler : GoHandler :=
  ⟨fun _ => ⟨[], [], Timing.before, some "test panic"⟩⟩

/-- A probe reporting OK with a message. -/
def demoChk : Checker := ⟨"db", fun _ => (StatusOK, "probe ok")⟩

/-- A second probe, reporting Error. -/
def demoChkErr : Checker := ⟨"cache", fun _ => (StatusError, "refused")⟩

/-! ## Theorems -/

/-- Auxiliary: fillResults never changes the length of the slot array. -/
theorem fillResults_length (f : Nat → CheckResponse) :
    ∀ (order : List Nat) (acc : List CheckResponse),
      (fillResults f order acc).length = acc.length := by
  intro order
  induction order with
  | nil => intro acc; rfl
  | cons o rest ih =>
      intro acc
      simp only [fillResults, ih, List.length_set]

/-- Auxiliary: a slot already holding its final value keeps it through any
further completions. -/
theorem fillResults_frozen (f : Nat → CheckResponse) :
    ∀ (order : List Nat) (acc : List CheckResponse) (i : Nat),
      acc[i]? = some (f i) → (fillResults f order acc)[i]? = some (f i) := by
  intro order
  induction order with
  | nil => intro acc i h; exact h
  | cons o rest ih =>
      intro acc i h
      apply ih
      by_cases ho : o = i
      · subst ho
        have hlt : o < acc.length := by
          rcases List.getElem?_eq_some.mp h with ⟨hl, _⟩
          exact hl
        rw [List.getElem?_set_eq_of_lt _ hlt]
      · rw [List.getElem?_set_ne ho]
        exact h

/-- Auxiliary: once goroutine i has completed, slot i holds its result. -/
theorem fillResults_mem (f : Nat → CheckResponse) :
    ∀ (order : List Nat) (acc : List CheckResponse) (i : Nat),
      i ∈ order → i < acc.length → (fillResults f order acc)[i]? = some (f i) := by
  intro order
  induction order with
  | nil => intro acc i hmem _; cases hmem
  | cons o rest ih =>
      intro acc i hmem hlen
      rcases List.mem_cons.mp hmem with heq | htail
      · subst heq
        exact fillResults_frozen f rest _ i (List.getElem?_set_eq_of_lt _ hlen)
      · exact ih _ i htail (by simpa [List.length_set] using hlen)

/-- C3: for every registration of N probes and every completion order that
includes each registered probe, the orchestrator output has length N and
slot i holds the CheckResponse computed for the probe registered at index
i — completion order never changes placement. -/
theorem runAllChecks_registration_indexed (ctxAt : Nat → CtxState) (cfg : readyConfig)
    (checkers : List Checker) (durOf : Nat → String) (order : List Nat)
    (hcover : ∀ i, i < checkers.length → i ∈ order) :
    (runAllChecks ctxAt cfg checkers durOf order).length = checkers.length ∧
    ∀ i, i < checkers.length →
      (runAllChecks ctxAt cfg checkers durOf order)[i]? =
        some (runCheck (ctxAt i) cfg (checkers.getD i default) (durOf i)) := by
  constructor
  · simpa [runAllChecks] using
      fillResults_length _ order (List.replicate checkers.length default)
  · intro i hi
    exact fillResults_mem _ order _ i (hcover i hi) (by simpa using hi)

/-- Witness for C3: two probes whose completions arrive in reversed order
still land at their registration indices. -/
theorem runAllChecks_registration_indexed_witness :
    (∀ i, i < ([demoChk, demoChkErr] : List Checker).length → i ∈ [1, 0]) ∧
    ((runAllChecks (fun _ => ⟨none⟩) ⟨2000000000⟩ [demoChk, demoChkErr]
        (fun _ => "1ms") [1, 0]).length = 2 ∧
      ∀ i, i < ([demoChk, demoChkErr] : List Checker).length →
        (runAllChecks (fun _ => ⟨none⟩) ⟨2000000000⟩ [demoChk, demoChkErr]
            (fun _ => "1ms") [1, 0])[i]? =
          some (runCheck ⟨none⟩ ⟨2000000000⟩ (([demoChk, demoChkErr] : List Checker).getD i default)
            "1ms")) := by
  have hcov : ∀ i, i < ([demoChk, demoChkErr] : List Checker).length → i ∈ [1, 0] := by
    intro i hi
    have h2 : i < 2 := by simpa using hi
    interval_cases i <;> simp
  exact ⟨hcov,
    runAllChecks_registration_indexed (fun _ => ⟨none⟩) ⟨2000000000⟩ [demoChk, demoChkErr]
      (fun _ => "1ms") [1, 0] hcov⟩

/-- C4: aggregation is Error exactly when some check is not OK, OK exactly
when all are OK (so zero probes give OK), and no value outside ok/error is
ever produced. -/
theorem overallStatus_spec (checks : List CheckResponse) :
    (overallStatus checks = StatusError ↔ ∃ c ∈ checks, c.status ≠ StatusOK) ∧
    (overallStatus checks = StatusOK ↔ ∀ c ∈ checks, c.status = StatusOK) ∧
    overallStatus ([] : List CheckResponse) = StatusOK ∧
    (overallStatus checks = StatusOK ∨ overallStatus checks = StatusError) := by
  have hne : StatusError ≠ StatusOK := by decide
  refine ⟨?_, ?_, rfl, ?_⟩
  · induction checks with
    | nil => simp [overallStatus, hne.symm]
    | cons c rest ih =>
        by_cases hc : c.status = StatusOK
        · simp [overallStatus, hc, ih]
        · simp [overallStatus, hc]
  · induction checks with
    | nil => simp [overallStatus]
    | cons c rest ih =>
        by_cases hc : c.status = StatusOK
        · simp [overallStatus, hc, ih]
        · simp [overallStatus, hc, hne]
  · induction checks with
    | nil => exact Or.inl rfl
    | cons c rest ih =>
        by_cases hc : c.status = StatusOK
        · simpa [overallStatus, hc] using ih
        · simp [overallStatus, hc]

/-- Witness for C4: the empty registration aggregates to OK, one failing
check aggregates to Error. -/
theorem overallStatus_spec_witness :
    overallStatus ([] : List CheckResponse) = StatusOK ∧
    overallStatus [⟨"cache", StatusError, "refused", "1ms"⟩] = StatusError := by
  refine ⟨(overallStatus_spec []).2.2.1, ?_⟩
  exact (overallStatus_spec [⟨"cache", StatusError, "refused", "1ms"⟩]).1.mpr
    ⟨⟨"cache", StatusError, "refused", "1ms"⟩, by simp, by decide⟩

/-- C2: after the probe call returns, an already-expired context together
with a reported OK forces the result to Error with the cancellation reason
joined onto the message ("; " separator when a message exists, the reason
alone otherwise); in every other case status and message pass through
unchanged. -/
theorem runCheck_ctx_override (ctx : CtxState) (cfg : readyConfig) (chk : Checker)
    (elapsed : String) :
    (∀ e, ctx.errMsg = some e → (chk.check ctx).1 = StatusOK →
        (runCheck ctx cfg chk elapsed).status = StatusError ∧
        (runCheck ctx cfg chk elapsed).message =
          (if (chk.check ctx).2 = "" then e else (chk.check ctx).2 ++ "; " ++ e)) ∧
    ((ctx.errMsg = none ∨ (chk.check ctx).1 ≠ StatusOK) →
        (runCheck ctx cfg chk elapsed).status = (chk.check ctx).1 ∧
        (runCheck ctx cfg chk elapsed).message = (chk.check ctx).2) := by
  constructor
  · intro e he hok
    simp [runCheck, he, hok]
  · intro hkeep
    rcases hkeep with hnone | hnot
    · simp [runCheck, hnone]
    · cases h : ctx.errMsg with
      | none => simp [runCheck, h]
      | some e => simp [runCheck, h, hnot]

/-- Witness for C2: a probe that reports OK with message "probe ok" under
a context already expired with reason "context deadline exceeded" is
downgraded to Error with the joined message. -/
theorem runCheck_ctx_override_witness :
    (runCheck ⟨some "context deadline exceeded"⟩ ⟨2000000000⟩ demoChk "5ms").status =
      StatusError ∧
    (runCheck ⟨some "context deadline exceeded"⟩ ⟨2000000000⟩ demoChk "5ms").message =
      "probe ok; context deadline exceeded" := by
  have h :=
    (runCheck_ctx_override ⟨some "context deadline exceeded"⟩ ⟨2000000000⟩ demoChk "5ms").1
      "context deadline exceeded" rfl rfl
  exact ⟨h.1, h.2.trans (by decide)⟩

/-- Auxiliary: where the "host" key shows up in the ready JSON body. -/
theorem lookupField_ready_host (r : ReadyResponse) :
    (r.host ≠ "" →
      lookupField (readyResponseFields r) "host" = some (JVal.str r.host)) ∧
    (r.host = "" → lookupField (readyResponseFields r) "host" = none) := by
  have h1 : ("status" : String) ≠ "host" := by decide
  have h2 : ("checks" : String) ≠ "host" := by decide
  have h3 : ("version" : String) ≠ "host" := by decide
  have h4 : ("environment" : String) ≠ "host" := by decide
  unfold readyResponseFields
  by_cases hv : r.version = "" <;> by_cases hh : r.host = "" <;>
    by_cases he : r.environment = "" <;>
      simp [hv, hh, he, lookupField, h1, h2, h3, h4]

/-- C10: the readiness body carries a "host" field, omitted exactly when
the captured host string is empty; the host is fixed at handler
construction — the hostname on lookup success, the literal "unknown" on
failure — and is the same in the response of every request served by that
handler. -/
theorem ready_host_field (lookup : Option String) (version environment : String)
    (cs1 cs2 : List CheckResponse) :
    (buildReadyResponse version (NewHandlerHost lookup) environment cs1).host =
      (buildReadyResponse version (NewHandlerHost lookup) environment cs2).host ∧
    (lookup = none → NewHandlerHost lookup = "unknown") ∧
    (∀ h, lookup = some h → NewHandlerHost lookup = h) ∧
    (NewHandlerHost lookup ≠ "" →
      lookupField
        (readyResponseFields
          (buildReadyResponse version (NewHandlerHost lookup) environment cs1)) "host" =
        some (JVal.str (NewHandlerHost lookup))) ∧
    (NewHandlerHost lookup = "" →
      lookupField
        (readyResponseFields
          (buildReadyResponse version (NewHandlerHost lookup) environment cs1)) "host" =
        none) := by
  refine ⟨rfl, ?_, ?_, ?_, ?_⟩
  · intro h; simp [NewHandlerHost, h]
  · intro h hh; simp [NewHandlerHost, hh]
  · intro hne
    exact (lookupField_ready_host
      (buildReadyResponse version (NewHandlerHost lookup) environment cs1)).1 hne
  · intro hempty
    exact (lookupField_ready_host
      (buildReadyResponse version (NewHandlerHost lookup) environment cs1)).2 hempty

/-- Witness for C10: a failed hostname lookup fixes host to "unknown",
which then appears as the "host" field of the body of each request. -/
theorem ready_host_field_witness :
    NewHandlerHost none = "unknown" ∧
    NewHandlerHost none ≠ "" ∧
    lookupField
      (readyResponseFields
        (buildReadyResponse "1.2.3" (NewHandlerHost none) "prod" [])) "host" =
      some (JVal.str "unknown") := by
  have h := ready_host_field none "1.2.3" "prod" [] [⟨"db", StatusOK, "", "1ms"⟩]
  refine ⟨h.2.1 rfl, by decide, ?_⟩
  exact h.2.2.2.1 (by decide)

/-- C6: a nonpositive duration makes the middleware an identity
passthrough — the handler runs on the unwrapped writer with the request
context underived, and the outcome is exactly that of calling the handler
without the middleware, for every handler, request context, writer and
scheduler choice. -/
theorem Timeout_nonpositive_passthrough (duration : Int) (next : GoHandler) (rctx : ReqCtx)
    (pick guardFirst : Bool) (w : RawWriter) (hd : duration ≤ 0) :
    Timeout duration next rctx pick guardFirst w = plainServe next rctx w := by
  simp [Timeout, hd]

/-- Witness for C6 at duration 0 and a fast 200 handler. -/
theorem Timeout_nonpositive_passthrough_witness :
    ((0 : Int) ≤ 0) ∧
    Timeout 0 okHandler ⟨false⟩ true true emptyWriter = plainServe okHandler ⟨false⟩ emptyWriter :=
  ⟨by decide,
    Timeout_nonpositive_passthrough 0 okHandler ⟨false⟩ true true emptyWriter (by decide)⟩

/-- C8: when the handler panicked and its completion signal wins the race
(strictly before the deadline, or at a tie resolved to the done case), the
middleware re-raises that same panic value to its caller. -/
theorem Timeout_completed_reraises_panic (duration : Int) (next : GoHandler) (rctx : ReqCtx)
    (pick guardFirst : Bool) (w : RawWriter) (p : String)
    (hd : 0 < duration)
    (hp : (next.run (deriveTimeout rctx)).panics = some p)
    (hwin : (next.run (deriveTimeout rctx)).timing = Timing.before ∨
      ((next.run (deriveTimeout rctx)).timing = Timing.tie ∧ pick = true)) :
    (Timeout duration next rctx pick guardFirst w).2 = MWResult.panicked p := by
  have hneg : ¬ duration ≤ 0 := by omega
  rcases hwin with ht | ⟨ht, hpick⟩
  · simp [Timeout, hneg, timeoutServe, ht, completedResult, hp]
  · simp [Timeout, hneg, timeoutServe, ht, hpick, completedResult, hp]

/-- Witness for C8: a handler that panics with "test panic" before a 1ns
deadline; the middleware call ends in that panic. -/
theorem Timeout_completed_reraises_panic_witness :
    ((0 : Int) < 1) ∧
    (panickingHandler.run (deriveTimeout ⟨false⟩)).panics = some "test panic" ∧
    (Timeout 1 panickingHandler ⟨false⟩ true true emptyWriter).2 =
      MWResult.panicked "test panic" :=
  ⟨by decide, rfl,
    Timeout_completed_reraises_panic 1 panickingHandler ⟨false⟩ true true emptyWriter
      "test panic" (by decide) rfl (Or.inl rfl)⟩

/-- C7: whenever the deadline branch finds headers unsent and therefore
writes the synthetic timeout response, the transport receives status 503,
the problem content type, and the JSON body whose fields carry status 503,
title "Service Unavailable" and detail "request timeout exceeded". -/
theorem timeoutBranch_synthetic_response (tw : timeoutResponseWriter)
    (h : tw.headersSent = false) :
    getHeader (timeoutBranch tw).underlying "Content-Type" =
      some "application/problem+json" ∧
    (timeoutBranch tw).underlying.events =
      tw.underlying.events ++
        [WriteEvent.statusCode 503, WriteEvent.body (Chunk.json svcUnavailFields)] ∧
    ("status", JVal.num 503) ∈ svcUnavailFields ∧
    ("title", JVal.str "Service Unavailable") ∈ svcUnavailFields ∧
    ("detail", JVal.str "request timeout exceeded") ∈ svcUnavailFields := by
  have hm : marshalProblem (ServiceUnavailable "request timeout exceeded" []) =
      Except.ok svcUnavailFields := rfl
  refine ⟨?_, ?_, ?_, ?_, ?_⟩
  · simp [timeoutBranch, h, RespondProblem, hm, rawWrite, rawWriteHeader, setHeader,
      getHeader, lookupHeader]
  · simp [timeoutBranch, h, RespondProblem, hm, rawWrite, rawWriteHeader, setHeader]
    rfl
  · simp [svcUnavailFields]
  · simp [svcUnavailFields]
  · simp [svcUnavailFields]

/-- Witness for C7 on a fresh wrapper over an empty transport. -/
theorem timeoutBranch_synthetic_response_witness :
    (({ underlying := emptyWriter, headersSent := false } :
        timeoutResponseWriter).headersSent = false) ∧
    (getHeader (timeoutBranch { underlying := emptyWriter, headersSent := false }).underlying
        "Content-Type" = some "application/problem+json" ∧
      (timeoutBranch { underlying := emptyWriter, headersSent := false }).underlying.events =
        emptyWriter.events ++
          [WriteEvent.statusCode 503, WriteEvent.body (Chunk.json svcUnavailFields)] ∧
      ("status", JVal.num 503) ∈ svcUnavailFields ∧
      ("title", JVal.str "Service Unavailable") ∈ svcUnavailFields ∧
      ("detail", JVal.str "request timeout exceeded") ∈ svcUnavailFields) :=
  ⟨rfl, timeoutBranch_synthetic_response { underlying := emptyWriter, headersSent := false } rfl⟩

/-- C1 evaluated at the repository test scenario "suppresses late writes
after timeout response": a 10ms deadline, a handler that never writes
before the deadline and writes "late-write" afterwards.  The transport
receives the synthetic 503 problem response AND the late handler chunk:
the deadline branch writes through the raw writer without marking the
wrapper's headersSent flag, so the lingering write is forwarded rather
than discarded. -/
theorem Timeout_late_write_reaches_transport :
    (Timeout 10000000 lateWriteHandler ⟨false⟩ true true emptyWriter).1.events =
      [WriteEvent.statusCode 503, WriteEvent.body (Chunk.json svcUnavailFields),
        WriteEvent.body (Chunk.raw "late-write")] := rfl

/-- C5 counterexample: a handler whose completion signal and the deadline
signal become ready at the same instant, having written nothing.  The
scheduler choice alone decides the branch: with pick = false the deadline
branch runs and the synthetic 503 response is written to the just-finished
handler's client; with pick = true nothing is written.  The claimed
always-Completed tie-break therefore does not hold. -/
theorem select_tie_counterexample :
    (Timeout 1 tieHandler ⟨false⟩ false true emptyWriter).1.events =
      [WriteEvent.statusCode 503, WriteEvent.body (Chunk.json svcUnavailFields)] ∧
    (Timeout 1 tieHandler ⟨false⟩ true true emptyWriter).1.events = ([] : List WriteEvent) :=
  ⟨rfl, rfl⟩

/-- C5 (amended): when both select signals are simultaneously ready, Go's
select chooses between the two ready cases pseudo-randomly, so either
branch can be taken: the scheduler choice true yields the Completed
outcome, the choice false runs the deadline branch, which writes the
synthetic problem response when the finished handler had written
nothing. -/
theorem select_tie_nondeterministic (duration : Int) (next : GoHandler) (rctx : ReqCtx)
    (guardFirst : Bool) (w : RawWriter)
    (hd : 0 < duration)
    (ht : (next.run (deriveTimeout rctx)).timing = Timing.tie)
    (hops : (next.run (deriveTimeout rctx)).opsBeforeDeadline = [])
    (hp : (next.run (deriveTimeout rctx)).panics = none) :
    (Timeout duration next rctx true guardFirst w).1 = w ∧
    (Timeout duration next rctx true guardFirst w).2 = MWResult.returned ∧
    (Timeout duration next rctx false guardFirst w).1 =
      RespondProblem w (ServiceUnavailable "request timeout exceeded" []) := by
  have hneg : ¬ duration ≤ 0 := by omega
  refine ⟨?_, ?_, ?_⟩ <;>
    simp [Timeout, hneg, timeoutServe, ht, hops, hp, completedResult, applyOps, timeoutBranch]

/-- Witness for C5 (amended) on the concrete tie handler. -/
theorem select_tie_nondeterministic_witness :
    ((0 : Int) < 1) ∧
    (tieHandler.run (deriveTimeout ⟨false⟩)).timing = Timing.tie ∧
    ((Timeout 1 tieHandler ⟨false⟩ true true emptyWriter).1 = emptyWriter ∧
      (Timeout 1 tieHandler ⟨false⟩ true true emptyWriter).2 = MWResult.returned ∧
      (Timeout 1 tieHandler ⟨false⟩ false true emptyWriter).1 =
        RespondProblem emptyWriter (ServiceUnavailable "request timeout exceeded" [])) :=
  ⟨by decide, rfl,
    select_tie_nondeterministic 1 tieHandler ⟨false⟩ true emptyWriter (by decide) rfl rfl rfl⟩

/-- C9 counterexample: in the call sequence Write "x" then WriteHeader
200, the first (and only) WriteHeader call forwards no status code at all
to the underlying writer — the preceding Write already marked headers
sent, so the claim that the first WriteHeader call forwards its code
fails. -/
theorem writeHeader_after_write_not_forwarded :
    (applyOps { underlying := emptyWriter, headersSent := false }
        [WOp.write "x", WOp.writeHeader 200]).underlying.events =
      [WriteEvent.body (Chunk.raw "x")] ∧
    countStatus
      (applyOps { underlying := emptyWriter, headersSent := false }
          [WOp.write "x", WOp.writeHeader 200]).underlying.events = 0 :=
  ⟨rfl, rfl⟩

/-- Auxiliary: counting forwarded status codes distributes over append. -/
theorem countStatus_append (a b : List WriteEvent) :
    countStatus (a ++ b) = countStatus a + countStatus b := by
  simp [countStatus, List.filter_append]

/-- Auxiliary: forwarded body chunks distribute over append. -/
theorem bodiesOf_append (a b : List WriteEvent) :
    bodiesOf (a ++ b) = bodiesOf a ++ bodiesOf b := by
  simp [bodiesOf, List.filterMap_append]

/-- Auxiliary: the wrapper forwards at most one further status code, none
once headers count as sent. -/
theorem applyOps_countStatus :
    ∀ (ops : List WOp) (tw : timeoutResponseWriter),
      countStatus (applyOps tw ops).underlying.events ≤
        countStatus tw.underlying.events + (if tw.headersSent then 0 else 1) := by
  intro ops
  induction ops with
  | nil =>
      intro tw
      exact Nat.le_add_right _ _
  | cons op rest ih =>
      intro tw
      cases op with
      | writeHeader c =>
          by_cases hs : tw.headersSent
          · simpa [applyOps, applyOp, timeoutResponseWriter.WriteHeader, hs] using ih tw
          · have hone : countStatus [WriteEvent.statusCode c] = 1 := rfl
            have h2 := ih { underlying := rawWriteHeader tw.underlying c, headersSent := true }
            simp [rawWriteHeader, countStatus_append, hone] at h2
            simpa [applyOps, applyOp, timeoutResponseWriter.WriteHeader, hs, rawWriteHeader,
              Nat.add_assoc] using h2
      | write b =>
          have hzero : countStatus [WriteEvent.body (Chunk.raw b)] = 0 := rfl
          have h2 := ih { underlying := rawWrite tw.underlying (Chunk.raw b), headersSent := true }
          simp [rawWrite, countStatus_append, hzero] at h2
          refine Nat.le_trans ?_ (Nat.le_add_right _ _)
          simpa [applyOps, applyOp, timeoutResponseWriter.Write, rawWrite] using h2

/-- Auxiliary: exactly the bytes the handler asked to Write reach the
underlying writer, in order. -/
theorem applyOps_bodies :
    ∀ (ops : List WOp) (tw : timeoutResponseWriter),
      bodiesOf (applyOps tw ops).underlying.events =
        bodiesOf tw.underlying.events ++ opsBodies ops := by
  intro ops
  induction ops with
  | nil =>
      intro tw
      simp [applyOps, opsBodies]
  | cons op rest ih =>
      intro tw
      cases op with
      | writeHeader c =>
          have hz : bodiesOf [WriteEvent.statusCode c] = [] := rfl
          have hop : opsBodies (WOp.writeHeader c :: rest) = opsBodies rest := rfl
          by_cases hs : tw.headersSent
          · rw [hop]
            simpa [applyOps, applyOp, timeoutResponseWriter.WriteHeader, hs] using ih tw
          · rw [hop]
            have h2 := ih { underlying := rawWriteHeader tw.underlying c, headersSent := true }
            simp [rawWriteHeader, bodiesOf_append, hz] at h2
            simpa [applyOps, applyOp, timeoutResponseWriter.WriteHeader, hs, rawWriteHeader]
              using h2
      | write b =>
          have hw : bodiesOf [WriteEvent.body (Chunk.raw b)] = [Chunk.raw b] := rfl
          have hop : opsBodies (WOp.write b :: rest) = Chunk.raw b :: opsBodies rest := rfl
          rw [hop]
          have h2 := ih { underlying := rawWrite tw.underlying (Chunk.raw b), headersSent := true }
          simp [rawWrite, bodiesOf_append, hw] at h2
          simpa [applyOps, applyOp, timeoutResponseWriter.Write, rawWrite] using h2

/-- C9 (amended): once headers count as sent, every further WriteHeader
call is a silent no-op; a Write always marks headers sent and always
forwards its bytes — over any call sequence from a fresh wrapper, at most
one status code is ever forwarded (so the response status cannot change
once set) and the forwarded body chunks are exactly the Write payloads in
order. -/
theorem tw_writer_discipline (ops : List WOp) (w0 : RawWriter) :
    (∀ (u : RawWriter) (c : Int),
        timeoutResponseWriter.WriteHeader { underlying := u, headersSent := true } c =
          { underlying := u, headersSent := true }) ∧
    (∀ (u : RawWriter) (s : Bool) (b : String),
        (timeoutResponseWriter.Write { underlying := u, headersSent := s } b).headersSent =
          true) ∧
    countStatus (applyOps { underlying := w0, headersSent := false } ops).underlying.events ≤
      countStatus w0.events + 1 ∧
    bodiesOf (applyOps { underlying := w0, headersSent := false } ops).underlying.events =
      bodiesOf w0.events ++ opsBodies ops := by
  refine ⟨?_, ?_, ?_, ?_⟩
  · intro u c
    simp [timeoutResponseWriter.WriteHeader]
  · intro u s b
    simp [timeoutResponseWriter.Write]
  · simpa using applyOps_countStatus ops { underlying := w0, headersSent := false }
  · exact applyOps_bodies ops { underlying := w0, headersSent := false }
